import Mathlib

/-!
Verification development for the YouTube abuse-trends data-collection module
(`01_data_collection.py`).  The comment-scoring engine, velocity calculator,
coordination detector and metric aggregator are embedded shallowly: Python
strings become `List Char`, Python floats become exact rationals `ℚ`, the
0/1 integer flags become `Bool`, and the exception raised by
`datetime.fromisoformat` on malformed input becomes an `Except` error value.
`round(x, n)` is modelled as exact round-half-to-even on rationals.
`str.lower` / `str.isupper` are modelled by `Char.toLower` / `Char.isUpper`,
faithful on the ASCII texts the analysis targets.
-/

namespace YTAbuse

/-- Round-half-to-even to the nearest integer, the rounding mode of Python's
built-in `round`. -/
def roundHalfEven (q : ℚ) : ℤ :=
  if q - ⌊q⌋ < 1/2 then ⌊q⌋
  else if 1/2 < q - ⌊q⌋ then ⌊q⌋ + 1
  else if ⌊q⌋ % 2 = 0 then ⌊q⌋ else ⌊q⌋ + 1

/-- Model of Python's `round(q, n)` on exact rationals. -/
def roundTo (n : ℕ) (q : ℚ) : ℚ :=
  (roundHalfEven (q * 10 ^ n) : ℚ) / 10 ^ n

/-- Spam keyword list `Config.SPAM_KEYWORDS` (source lines 43-51). -/
def SPAM_KEYWORDS : List (List Char) :=
  ["click here".toList, "free money".toList, "subscribe to my channel".toList,
   "check out my".toList, "dm for".toList, "winner".toList,
   "congratulations".toList, "telegram".toList, "whatsapp me".toList,
   "+1".toList, "cash app".toList, "!!!".toList, "????".toList,
   "www.".toList, "http".toList]

/-- Substring containment, modelling Python's `pat in hay`. -/
def containsSub (pat hay : List Char) : Bool :=
  hay.tails.any (fun t => pat.isPrefixOf t)

/-- Count of spam keywords occurring in the lower-cased text
(source line 256: `sum(1 for keyword in Config.SPAM_KEYWORDS if keyword in text_lower)`). -/
def spam_matches_count (text_lower : List Char) : ℕ :=
  SPAM_KEYWORDS.countP (fun k => containsSub k text_lower)

/-- URL detection, modelling the regex search for `http[s]?://|www\.` on the
original-case text (source line 259). -/
def has_url_check (text : List Char) : Bool :=
  containsSub "http://".toList text || containsSub "https://".toList text ||
    containsSub "www.".toList text

/-- Ratio of uppercase letters with the `+1` smoothing denominator
(source line 262: `sum(1 for c in text if c.isupper()) / (len(text) + 1)`). -/
def capsFraction (text : List Char) : ℚ :=
  (text.countP (fun c => c.isUpper) : ℚ) / ((text.length : ℚ) + 1)

/-- Excessive-caps flag (source line 263:
`1 if caps_ratio > 0.5 and len(text) > 10 else 0`). -/
def has_excessive_caps_check (text : List Char) : Bool :=
  if capsFraction text > 1/2 ∧ text.length > 10 then true else false

/-- Repetitive-character flag, modelling the regex `(.)\1{3,}`: some character
other than a newline occurs 4 or more times consecutively (source line 266). -/
def has_repetitive_check : List Char → Bool
  | a :: b :: c :: d :: rest =>
      if a ≠ '\n' ∧ a = b ∧ b = c ∧ c = d then true
      else has_repetitive_check (b :: c :: d :: rest)
  | _ => false

/-- Unclamped-then-clamped spam score combination (source lines 269-274:
`min(1.0, spam_matches*0.3 + has_url*0.3 + has_excessive_caps*0.2 + has_repetitive*0.2)`). -/
def spamScoreRaw (spam_matches : ℕ) (url caps rep : Bool) : ℚ :=
  min 1 ((spam_matches : ℚ) * (3/10) + (if url then (1:ℚ) else 0) * (3/10) +
    (if caps then (1:ℚ) else 0) * (2/10) + (if rep then (1:ℚ) else 0) * (2/10))

/-- Spam score as returned: the clamped combination rounded to 3 decimal
places (source line 281: `round(spam_score, 3)`). -/
def spam_score_of_signals (spam_matches : ℕ) (url caps rep : Bool) : ℚ :=
  roundTo 3 (spamScoreRaw spam_matches url caps rep)

/-- Result record of `analyze_comment_for_abuse` (source lines 279-285). -/
structure AbuseAnalysis where
  is_spam : Bool
  spam_score : ℚ
  has_url : Bool
  has_excessive_caps : Bool
  has_repetitive_chars : Bool
  deriving Repr, DecidableEq

/-- Per-comment abuse analysis, `analyze_comment_for_abuse` (source lines
243-285).  Note the binary classification on line 277 compares the unrounded
score against the 0.4 threshold, while the returned score is rounded. -/
def analyze_comment_for_abuse (text : List Char) : AbuseAnalysis :=
  let text_lower := text.map Char.toLower
  let spam_matches := spam_matches_count text_lower
  let url := has_url_check text
  let caps := has_excessive_caps_check text
  let rep := has_repetitive_check text
  { is_spam := decide (spamScoreRaw spam_matches url caps rep ≥ 4/10)
    spam_score := spam_score_of_signals spam_matches url caps rep
    has_url := url
    has_excessive_caps := caps
    has_repetitive_chars := rep }

/-- Raw comment record as assembled by `get_video_comments` (source lines
215-223) before abuse analysis attaches derived fields. -/
structure RawComment where
  comment_id : List Char
  video_id : List Char
  author_channel_id : List Char
  author_name : List Char
  text_display : List Char
  like_count : ℕ
  published_at : List Char
  deriving DecidableEq

/-- Comment record after `comment_data.update(analyze_comment_for_abuse(...))`
(source line 226) has attached the five derived fields. -/
structure ScoredComment extends RawComment where
  is_spam : Bool
  spam_score : ℚ
  has_url : Bool
  has_excessive_caps : Bool
  has_repetitive_chars : Bool
  deriving DecidableEq

/-- Enrichment step of `get_video_comments` (source line 226): run the abuse
analysis on the display text and attach its fields to the record. -/
def enrich (c : RawComment) : ScoredComment :=
  let a := analyze_comment_for_abuse c.text_display
  { toRawComment := c
    is_spam := a.is_spam
    spam_score := a.spam_score
    has_url := a.has_url
    has_excessive_caps := a.has_excessive_caps
    has_repetitive_chars := a.has_repetitive_chars }

/-- Helper for building concrete comment records in examples. -/
def mkComment (text author ts : String) : RawComment :=
  { comment_id := []
    video_id := []
    author_channel_id := author.toList
    author_name := []
    text_display := text.toList
    like_count := 0
    published_at := ts.toList }

/-- Numeric value of an ASCII digit. -/
def digitVal (c : Char) : Option ℕ :=
  if '0' ≤ c ∧ c ≤ '9' then some (c.toNat - '0'.toNat) else none

/-- Two-digit decimal number. -/
def num2 (a b : Char) : Option ℕ := do
  let x ← digitVal a
  let y ← digitVal b
  pure (10 * x + y)

/-- Four-digit decimal number. -/
def num4 (a b c d : Char) : Option ℕ := do
  let x ← num2 a b
  let y ← num2 c d
  pure (100 * x + y)

/-- Gregorian leap-year predicate. -/
def isLeap (y : ℕ) : Bool :=
  decide ((y % 4 = 0 ∧ ¬y % 100 = 0) ∨ y % 400 = 0)

/-- Number of days in a month of the proleptic Gregorian calendar. -/
def daysInMonth (y m : ℕ) : ℕ :=
  if m = 2 then (if isLeap y then 29 else 28)
  else if m = 4 ∨ m = 6 ∨ m = 9 ∨ m = 11 then 30
  else 31

/-- Days in the months of year `y` strictly before month `m`. -/
def daysBeforeMonth (y m : ℕ) : ℕ :=
  ((List.range (m - 1)).map (fun i => daysInMonth y (i + 1))).sum

/-- Day count of a Gregorian date, measured from 0001-01-01. -/
def daysFromEpoch (y m d : ℕ) : ℕ :=
  365 * (y - 1) + (y - 1) / 4 - (y - 1) / 100 + (y - 1) / 400 +
    daysBeforeMonth y m + (d - 1)

/-- UTC-offset suffix of an ISO-8601 timestamp, in signed seconds; the empty
suffix means no offset. -/
def parseOffset : List Char → Option ℤ
  | [] => some 0
  | '+' :: h1 :: h2 :: ':' :: m1 :: m2 :: [] => do
      let h ← num2 h1 h2
      let m ← num2 m1 m2
      if h ≤ 23 ∧ m ≤ 59 then pure ((h : ℤ) * 3600 + (m : ℤ) * 60) else none
  | '-' :: h1 :: h2 :: ':' :: m1 :: m2 :: [] => do
      let h ← num2 h1 h2
      let m ← num2 m1 m2
      if h ≤ 23 ∧ m ≤ 59 then pure (-((h : ℤ) * 3600 + (m : ℤ) * 60)) else none
  | _ => none

/-- Replacement `published_at.replace('Z', '+00:00')` performed before parsing
(source line 297). -/
def replaceZ : List Char → List Char
  | [] => []
  | c :: rest => (if c = 'Z' then "+00:00".toList else [c]) ++ replaceZ rest

/-- Body of the ISO-8601 parse, applied after the `Z` replacement.  Models
Python's `datetime.fromisoformat` restricted to the shapes the collector
receives: `YYYY-MM-DD`, optionally a separator and `HH:MM:SS`, optionally a
`+HH:MM` or `-HH:MM` offset; anything else is a parse failure.  The result is
an absolute time in seconds (days from 0001-01-01 at 86400 s/day, offset
subtracted), so differences of results model `timedelta.total_seconds()`. -/
def parseIsoAfterZ : List Char → Option ℤ
  | y1 :: y2 :: y3 :: y4 :: '-' :: mo1 :: mo2 :: '-' :: d1 :: d2 :: rest => do
      let y ← num4 y1 y2 y3 y4
      let mo ← num2 mo1 mo2
      let d ← num2 d1 d2
      if 1 ≤ y ∧ 1 ≤ mo ∧ mo ≤ 12 ∧ 1 ≤ d ∧ d ≤ daysInMonth y mo then
        match rest with
        | [] => pure ((daysFromEpoch y mo d : ℤ) * 86400)
        | _ :: h1 :: h2 :: ':' :: mi1 :: mi2 :: ':' :: s1 :: s2 :: rest2 => do
            let h ← num2 h1 h2
            let mi ← num2 mi1 mi2
            let s ← num2 s1 s2
            if h ≤ 23 ∧ mi ≤ 59 ∧ s ≤ 59 then do
              let off ← parseOffset rest2
              pure ((daysFromEpoch y mo d : ℤ) * 86400 + (h : ℤ) * 3600 +
                (mi : ℤ) * 60 + (s : ℤ) - off)
            else none
        | _ => none
      else none
  | _ => none

/-- Timestamp parse of source line 297:
`datetime.fromisoformat(c['published_at'].replace('Z', '+00:00'))`; `none`
models the `ValueError` raised on malformed input. -/
def parseTimestamp (s : List Char) : Option ℤ :=
  parseIsoAfterZ (replaceZ s)

/-- Parse of every comment's timestamp, as the list comprehension of source
lines 297-298 does; the whole batch fails as soon as one comment's timestamp
fails to parse, as the comprehension raises at the first bad element. -/
def parseAllTimestamps : List RawComment → Option (List ℤ)
  | [] => some []
  | c :: cs =>
      match parseTimestamp c.published_at, parseAllTimestamps cs with
      | some t, some ts => some (t :: ts)
      | _, _ => none

/-- Comment-velocity metric, `calculate_velocity_metrics` (source lines
287-308).  Fewer than 2 comments short-circuit to 0.0 before any timestamp is
parsed; a zero-width window returns the raw comment count; otherwise the
count per minute is rounded to 2 decimal places.  A `ValueError` from the
timestamp parse is modelled as the `Except.error` value. -/
def calculate_velocity_metrics (comments : List RawComment) : Except String ℚ :=
  if comments.length < 2 then .ok 0
  else
    match parseAllTimestamps comments with
    | none => .error "ValueError: invalid isoformat string"
    | some ts =>
        let sorted := List.insertionSort (· ≤ ·) ts
        let window : ℚ := ((sorted.getLastI - sorted.headI : ℤ) : ℚ) / 60
        if window = 0 then .ok (comments.length : ℚ)
        else .ok (roundTo 2 ((comments.length : ℚ) / window))

/-- Lower-cased display texts of a batch (source line 323). -/
def lowerTexts (comments : List RawComment) : List (List Char) :=
  comments.map (fun c => c.text_display.map Char.toLower)

/-- Duplicate-text ratio as the code computes it (source lines 324-325):
`Counter(texts)` iterates over distinct texts, so
`sum(1 for count in text_counts.values() if count > 1)` counts the distinct
lower-cased texts occurring more than once, divided by the total count. -/
def duplicate_ratio_val (comments : List RawComment) : ℚ :=
  (((lowerTexts comments).dedup.filter
      (fun t => decide (1 < (lowerTexts comments).count t))).length : ℚ) /
    ((lowerTexts comments).length : ℚ)

/-- Author-diversity ratio (source lines 328-330): distinct author ids over
total comments. -/
def author_diversity (comments : List RawComment) : ℚ :=
  ((comments.map (fun c => c.author_channel_id)).dedup.length : ℚ) /
    (comments.length : ℚ)

/-- Coordination score, `detect_coordinated_activity` (source lines 310-335):
0.0 below 5 comments, otherwise the weighted combination of text duplication
and author concentration rounded to 3 decimal places. -/
def detect_coordinated_activity (comments : List RawComment) : ℚ :=
  if comments.length < 5 then 0
  else roundTo 3 (duplicate_ratio_val comments * (6/10) +
    (1 - author_diversity comments) * (4/10))

/-- Duplicate-text ratio as the specification words it, stated for the
refinement comparison against `duplicate_ratio_val`: the number of comments
whose lower-cased text occurs more than once (every member of a duplicated
group counted) divided by the total comment count. -/
def spec_duplicate_ratio_val (comments : List RawComment) : ℚ :=
  (((lowerTexts comments).filter
      (fun t => decide (1 < (lowerTexts comments).count t))).length : ℚ) /
    ((lowerTexts comments).length : ℚ)

/-- Aggregate metrics row assembled by `store_abuse_metrics` (source lines
398-431); the database insert itself is the storage collaborator's job. -/
structure VideoAbuseMetrics where
  total_comments : ℕ
  spam_comments : ℕ
  spam_prevalence : ℚ
  comment_velocity : Except String ℚ
  unique_authors : ℕ
  suspicious_accounts : ℕ
  bot_likelihood_score : ℚ

/-- Metric aggregation of `store_abuse_metrics` (source lines 398-431) as a
pure function of the scored batch. -/
def store_abuse_metrics (comments : List ScoredComment) : VideoAbuseMetrics :=
  let total := comments.length
  let spam := comments.countP (fun c => c.is_spam)
  let prevalence : ℚ := if 0 < total then (spam : ℚ) / (total : ℚ) * 100 else 0
  { total_comments := total
    spam_comments := spam
    spam_prevalence := roundTo 2 prevalence
    comment_velocity := calculate_velocity_metrics (comments.map (fun c => c.toRawComment))
    unique_authors := (comments.map (fun c => c.author_channel_id)).dedup.length
    suspicious_accounts := comments.countP (fun c => decide ((6:ℚ)/10 < c.spam_score))
    bot_likelihood_score := detect_coordinated_activity (comments.map (fun c => c.toRawComment)) }

/-- End-to-end scenario text of the spec's testable properties. -/
def scamText : List Char := "FREE MONEY!!! click here www.spam.com".toList

/-- Batch of 10 comments all with identical text and identical author id, the
scenario of the coordination-score example. -/
def tenIdentical : List RawComment :=
  List.replicate 10 (mkComment "Great video!" "user1" "2024-01-01T10:00:00Z")

/-- Singleton batch whose one timestamp is malformed. -/
def badSingleton : List RawComment :=
  [mkComment "hi" "a1" "not-a-timestamp"]

/-- Two-comment batch containing a malformed timestamp. -/
def badPair : List RawComment :=
  [mkComment "hi" "a1" "not-a-timestamp",
   mkComment "yo" "a2" "2024-01-01T10:00:00Z"]

/-- Batch of 5 comments all timestamped identically. -/
def fiveSameTime : List RawComment :=
  List.replicate 5 (mkComment "x" "a" "2024-01-01T10:00:00Z")

/-- Batch of 10 comments spread evenly from 10:00:00 to 10:05:00, listed out
of order so the internal sort matters. -/
def tenOverFiveMinutes : List RawComment :=
  [mkComment "c0" "a0" "2024-01-01T10:05:00Z",
   mkComment "c1" "a1" "2024-01-01T10:00:00Z",
   mkComment "c2" "a2" "2024-01-01T10:00:30Z",
   mkComment "c3" "a3" "2024-01-01T10:01:00Z",
   mkComment "c4" "a4" "2024-01-01T10:01:30Z",
   mkComment "c5" "a5" "2024-01-01T10:02:00Z",
   mkComment "c6" "a6" "2024-01-01T10:02:30Z",
   mkComment "c7" "a7" "2024-01-01T10:03:00Z",
   mkComment "c8" "a8" "2024-01-01T10:03:30Z",
   mkComment "c9" "a9" "2024-01-01T10:04:00Z"]

lemma roundHalfEven_intCast (k : ℤ) : roundHalfEven (k : ℚ) = k := by
  norm_num [roundHalfEven, Int.floor_intCast]

lemma roundTo_eq (n : ℕ) (k : ℤ) (q : ℚ) (h : q * 10 ^ n = (k : ℚ)) :
    roundTo n q = (k : ℚ) / 10 ^ n := by
  unfold roundTo
  rw [h, roundHalfEven_intCast]

lemma roundTo_three_div_ten (n : ℕ) : roundTo 3 ((n : ℚ) / 10) = (n : ℚ) / 10 := by
  rw [roundTo_eq 3 (100 * n) _ (by push_cast; ring)]
  push_cast
  rw [div_eq_div_iff (by norm_num) (by norm_num)]
  ring

lemma min_one_div_ten (N : ℕ) :
    min (1 : ℚ) ((N : ℚ) / 10) = ((min N 10 : ℕ) : ℚ) / 10 := by
  rcases le_total N 10 with h | h
  · rw [Nat.min_eq_left h, min_eq_right (div_le_one_of_le₀ (by exact_mod_cast h) (by norm_num))]
  · rw [Nat.min_eq_right h, min_eq_left]
    · norm_num
    · rw [le_div_iff₀ (by norm_num : (0:ℚ) < 10)]
      exact_mod_cast h

lemma spamScoreRaw_eq (m : ℕ) (u c r : Bool) :
    spamScoreRaw m u c r =
      ((min (3 * m + 3 * cond u 1 0 + 2 * cond c 1 0 + 2 * cond r 1 0) 10 : ℕ) : ℚ) / 10 := by
  rw [← min_one_div_ten]
  unfold spamScoreRaw
  congr 1
  cases u <;> cases c <;> cases r <;>
    simp only [cond_true, cond_false, if_true, if_false] <;> push_cast <;> ring

lemma spam_score_of_signals_eq_raw (m : ℕ) (u c r : Bool) :
    spam_score_of_signals m u c r = spamScoreRaw m u c r := by
  rw [spam_score_of_signals, spamScoreRaw_eq m u c r, roundTo_three_div_ten,
    ← spamScoreRaw_eq m u c r]

lemma analyze_spam_score (text : List Char) :
    (analyze_comment_for_abuse text).spam_score =
      spam_score_of_signals (spam_matches_count (text.map Char.toLower))
        (has_url_check text) (has_excessive_caps_check text)
        (has_repetitive_check text) := rfl

lemma analyze_is_spam (text : List Char) :
    (analyze_comment_for_abuse text).is_spam =
      decide (spamScoreRaw (spam_matches_count (text.map Char.toLower))
        (has_url_check text) (has_excessive_caps_check text)
        (has_repetitive_check text) ≥ 4/10) := rfl

lemma analyze_has_url (text : List Char) :
    (analyze_comment_for_abuse text).has_url = has_url_check text := rfl

lemma analyze_has_excessive_caps (text : List Char) :
    (analyze_comment_for_abuse text).has_excessive_caps =
      has_excessive_caps_check text := rfl

lemma spam_score_of_signals_nonneg (m : ℕ) (u c r : Bool) :
    0 ≤ spam_score_of_signals m u c r := by
  rw [spam_score_of_signals_eq_raw, spamScoreRaw_eq]
  positivity

lemma spam_score_of_signals_le_one (m : ℕ) (u c r : Bool) :
    spam_score_of_signals m u c r ≤ 1 := by
  rw [spam_score_of_signals_eq_raw, spamScoreRaw_eq]
  rw [div_le_one (by norm_num : (0:ℚ) < 10)]
  exact_mod_cast Nat.cast_le.mpr (min_le_right _ 10)

/-- C4: for every input text the returned spam score lies in the interval
from 0 to 1 and the returned classification flag is true exactly when that
returned score reaches the 0.4 threshold. -/
theorem spam_score_bounds_and_threshold (text : List Char) :
    0 ≤ (analyze_comment_for_abuse text).spam_score ∧
    (analyze_comment_for_abuse text).spam_score ≤ 1 ∧
    ((analyze_comment_for_abuse text).is_spam = true ↔
      4/10 ≤ (analyze_comment_for_abuse text).spam_score) := by
  rw [analyze_spam_score, analyze_is_spam]
  refine ⟨spam_score_of_signals_nonneg _ _ _ _, spam_score_of_signals_le_one _ _ _ _, ?_⟩
  rw [decide_eq_true_iff, spam_score_of_signals_eq_raw, ge_iff_le]

/-- Witness for C4 at a concrete text. -/
theorem spam_score_bounds_and_threshold_witness :
    0 ≤ (analyze_comment_for_abuse ("hello".toList)).spam_score ∧
    (analyze_comment_for_abuse ("hello".toList)).spam_score ≤ 1 ∧
    ((analyze_comment_for_abuse ("hello".toList)).is_spam = true ↔
      4/10 ≤ (analyze_comment_for_abuse ("hello".toList)).spam_score) :=
  spam_score_bounds_and_threshold ("hello".toList)

/-- C5: the spam score is monotone non-decreasing in each of the four input
signals, holding the other three fixed. -/
theorem spam_score_monotone :
    (∀ (m m' : ℕ) (u c r : Bool), m ≤ m' →
      spam_score_of_signals m u c r ≤ spam_score_of_signals m' u c r) ∧
    (∀ (m : ℕ) (c r : Bool),
      spam_score_of_signals m false c r ≤ spam_score_of_signals m true c r) ∧
    (∀ (m : ℕ) (u r : Bool),
      spam_score_of_signals m u false r ≤ spam_score_of_signals m u true r) ∧
    (∀ (m : ℕ) (u c : Bool),
      spam_score_of_signals m u c false ≤ spam_score_of_signals m u c true) := by
  refine ⟨?_, ?_, ?_, ?_⟩ <;> intros <;>
    simp only [spam_score_of_signals_eq_raw, spamScoreRaw_eq, cond_true, cond_false] <;>
    gcongr <;> omega

/-- Witness for C5: the keyword-count monotonicity instantiated at 1 ≤ 2. -/
theorem spam_score_monotone_witness :
    spam_score_of_signals 1 false false false ≤ spam_score_of_signals 2 false false false :=
  spam_score_monotone.1 1 2 false false false (by decide)

/-- C7: the excessive-caps flag is true exactly when the smoothed caps ratio
exceeds one half and the text is longer than 10 characters; in particular the
flag is false on any text of length at most 10. -/
theorem excessive_caps_characterization (text : List Char) :
    ((analyze_comment_for_abuse text).has_excessive_caps = true ↔
      (capsFraction text > 1/2 ∧ text.length > 10)) ∧
    (text.length ≤ 10 → (analyze_comment_for_abuse text).has_excessive_caps = false) := by
  have hiff : (analyze_comment_for_abuse text).has_excessive_caps = true ↔
      (capsFraction text > 1/2 ∧ text.length > 10) := by
    rw [analyze_has_excessive_caps]
    unfold has_excessive_caps_check
    by_cases h : capsFraction text > 1/2 ∧ text.length > 10
    · rw [if_pos h]; exact iff_of_true rfl h
    · rw [if_neg h]; exact iff_of_false (by simp) h
  refine ⟨hiff, fun hlen => ?_⟩
  rcases Bool.eq_false_or_eq_true ((analyze_comment_for_abuse text).has_excessive_caps) with hb | hb
  · exact absurd (hiff.mp hb).2 (by omega)
  · exact hb

/-- Witness for C7: a length-10 all-caps text is not flagged. -/
theorem excessive_caps_characterization_witness :
    (analyze_comment_for_abuse ("AAAAAAAAAA".toList)).has_excessive_caps = false :=
  (excessive_caps_characterization ("AAAAAAAAAA".toList)).2 (by decide)

lemma containsSub_iff (pat hay : List Char) :
    containsSub pat hay = true ↔ pat <:+: hay := by
  unfold containsSub
  rw [List.any_eq_true]
  constructor
  · rintro ⟨t, ht, hp⟩
    rw [List.mem_tails] at ht
    rw [List.isPrefixOf_iff_prefix] at hp
    exact List.infix_iff_prefix_suffix.mpr ⟨t, hp, ht⟩
  · intro h
    rcases List.infix_iff_prefix_suffix.mp h with ⟨t, hp, ht⟩
    exact ⟨t, (List.mem_tails _ _).mpr ht, List.isPrefixOf_iff_prefix.mpr hp⟩

lemma spam_score_of_signals_ge_six (m : ℕ) (hm : 1 ≤ m) (c r : Bool) :
    (6:ℚ)/10 ≤ spam_score_of_signals m true c r := by
  rw [spam_score_of_signals_eq_raw, spamScoreRaw_eq]
  have h6 : (6:ℕ) ≤ min (3 * m + 3 * cond true 1 0 + 2 * cond c 1 0 + 2 * cond r 1 0) 10 :=
    le_min (by cases c <;> cases r <;> simp only [cond_true, cond_false] <;> omega) (by norm_num)
  gcongr
  exact_mod_cast h6

/-- C9: any text containing the lowercase substring `www.` fires both the URL
signal and the `www.` keyword, so its spam score is at least 0.6 and it is
classified spam. -/
theorem www_url_implies_spam (text : List Char) (h : "www.".toList <:+: text) :
    (analyze_comment_for_abuse text).has_url = true ∧
    (6:ℚ)/10 ≤ (analyze_comment_for_abuse text).spam_score ∧
    (analyze_comment_for_abuse text).is_spam = true := by
  have hurl : has_url_check text = true := by
    unfold has_url_check
    simp only [Bool.or_eq_true]
    exact Or.inr ((containsSub_iff _ _).mpr h)
  have hmatch : 1 ≤ spam_matches_count (text.map Char.toLower) := by
    unfold spam_matches_count
    refine List.countP_pos_iff.mpr ⟨"www.".toList, by decide, ?_⟩
    rw [containsSub_iff]
    have hmap := List.IsInfix.map Char.toLower h
    rw [show ("www.".toList.map Char.toLower) = "www.".toList from by decide] at hmap
    exact hmap
  have hscore : (6:ℚ)/10 ≤ (analyze_comment_for_abuse text).spam_score := by
    rw [analyze_spam_score, hurl]
    exact spam_score_of_signals_ge_six _ hmatch _ _
  refine ⟨by rw [analyze_has_url, hurl], hscore, ?_⟩
  rw [analyze_is_spam, hurl]
  refine decide_eq_true ?_
  rw [ge_iff_le, ← spam_score_of_signals_eq_raw]
  have := spam_score_of_signals_ge_six _ hmatch
    (has_excessive_caps_check text) (has_repetitive_check text)
  linarith

/-- Witness for C9 at a concrete text containing `www.`. -/
theorem www_url_implies_spam_witness :
    (analyze_comment_for_abuse ("visit www.example.com".toList)).has_url = true ∧
    (6:ℚ)/10 ≤ (analyze_comment_for_abuse ("visit www.example.com".toList)).spam_score ∧
    (analyze_comment_for_abuse ("visit www.example.com".toList)).is_spam = true :=
  www_url_implies_spam ("visit www.example.com".toList)
    ⟨"visit ".toList, "example.com".toList, by decide⟩

lemma parseAll_none_of_mem {comments : List RawComment} {c : RawComment}
    (hc : c ∈ comments) (hp : parseTimestamp c.published_at = none) :
    parseAllTimestamps comments = none := by
  induction comments with
  | nil => cases hc
  | cons a as ih =>
      rcases List.mem_cons.mp hc with rfl | h
      · unfold parseAllTimestamps
        rw [hp]
      · unfold parseAllTimestamps
        rw [ih h]
        cases parseTimestamp a.published_at <;> rfl

lemma parseAll_length {comments : List RawComment} {ts : List ℤ}
    (h : parseAllTimestamps comments = some ts) : ts.length = comments.length := by
  induction comments generalizing ts with
  | nil =>
      unfold parseAllTimestamps at h
      cases h
      rfl
  | cons a as ih =>
      unfold parseAllTimestamps at h
      cases hp : parseTimestamp a.published_at with
      | none => rw [hp] at h; cases h
      | some t =>
          rw [hp] at h
          cases hq : parseAllTimestamps as with
          | none => rw [hq] at h; cases h
          | some us =>
              rw [hq] at h
              cases h
              simp [ih hq]

lemma sorted_headI_le {l : List ℤ} (hs : l.Sorted (· ≤ ·)) {x : ℤ} (hx : x ∈ l) :
    l.headI ≤ x := by
  cases l with
  | nil => cases hx
  | cons a t =>
      rcases List.mem_cons.mp hx with rfl | h
      · simp
      · exact List.rel_of_sorted_cons hs _ h

lemma headI_mem_of_ne_nil {l : List ℤ} (h : l ≠ []) : l.headI ∈ l := by
  cases l with
  | nil => exact absurd rfl h
  | cons a t => exact List.mem_cons_self a t

lemma sorted_le_getLast : ∀ {l : List ℤ} (hne : l ≠ []), l.Sorted (· ≤ ·) →
    ∀ x ∈ l, x ≤ l.getLast hne := by
  intro l
  induction l with
  | nil => intro hne; exact absurd rfl hne
  | cons a t ih =>
      intro _ hs x hx
      cases t with
      | nil =>
          rcases List.mem_cons.mp hx with rfl | h
          · rfl
          · cases h
      | cons b t2 =>
          rw [List.getLast_cons (List.cons_ne_nil b t2)]
          rcases List.mem_cons.mp hx with rfl | h
          · exact le_trans (List.rel_of_sorted_cons hs _ (List.getLast_mem _))
              (le_refl _)
          · exact ih (List.cons_ne_nil b t2) ((List.sorted_cons.mp hs).2) x h

lemma getLastI_eq_getLast {l : List ℤ} (h : l ≠ []) : l.getLastI = l.getLast h := by
  rw [List.getLastI_eq_getLast?, List.getLast?_eq_getLast l h]

lemma velocity_formula {comments : List RawComment} {ts : List ℤ}
    (h2 : 2 ≤ comments.length) (hp : parseAllTimestamps comments = some ts) :
    calculate_velocity_metrics comments =
      (if (((List.insertionSort (· ≤ ·) ts).getLastI -
              (List.insertionSort (· ≤ ·) ts).headI : ℤ) : ℚ) / 60 = 0 then
        Except.ok (comments.length : ℚ)
      else
        Except.ok (roundTo 2 ((comments.length : ℚ) /
          ((((List.insertionSort (· ≤ ·) ts).getLastI -
              (List.insertionSort (· ≤ ·) ts).headI : ℤ) : ℚ) / 60)))) := by
  have hlt : ¬ comments.length < 2 := by omega
  unfold calculate_velocity_metrics
  rw [if_neg hlt, hp]

/-- C6: a batch of fewer than 2 timestamps has velocity 0.0; when the sorted
timestamps span a zero-width window the velocity is the raw comment count (so
5 identically-timestamped comments give 5.0); otherwise the velocity is the
count divided by the window in minutes, rounded to 2 decimal places (so 10
comments spread evenly over 5 minutes give 2.0).  The window is stated here
through the minimum and maximum of the parsed timestamps, which the sorted
list's first and last elements realize. -/
theorem velocity_cases :
    (∀ comments : List RawComment, comments.length < 2 →
      calculate_velocity_metrics comments = .ok 0) ∧
    (∀ (comments : List RawComment) (ts : List ℤ) (t : ℤ),
      2 ≤ comments.length → parseAllTimestamps comments = some ts →
      (∀ x ∈ ts, x = t) →
      calculate_velocity_metrics comments = .ok (comments.length : ℚ)) ∧
    (∀ (comments : List RawComment) (ts : List ℤ) (lo hi : ℤ),
      2 ≤ comments.length → parseAllTimestamps comments = some ts →
      lo ∈ ts → hi ∈ ts → (∀ x ∈ ts, lo ≤ x ∧ x ≤ hi) → lo ≠ hi →
      calculate_velocity_metrics comments =
        .ok (roundTo 2 ((comments.length : ℚ) / (((hi - lo : ℤ) : ℚ) / 60)))) ∧
    calculate_velocity_metrics fiveSameTime = .ok 5 ∧
    calculate_velocity_metrics tenOverFiveMinutes = .ok 2 := by
  refine ⟨?_, ?_, ?_, ?_, ?_⟩
  · intro comments h
    unfold calculate_velocity_metrics
    rw [if_pos h]
  · intro comments ts t h2 hp hall
    rw [velocity_formula h2 hp]
    have hperm := List.perm_insertionSort (· ≤ ·) ts
    set S := List.insertionSort (· ≤ ·) ts with hS
    have hne : S ≠ [] := by
      have hl := parseAll_length hp
      have hlen : S.length = ts.length := hperm.length_eq
      intro hnil
      rw [hnil] at hlen
      simp at hlen
      omega
    have hhead : S.headI = t := hall _ (hperm.mem_iff.mp (headI_mem_of_ne_nil hne))
    have hlast : S.getLastI = t := by
      rw [getLastI_eq_getLast hne]
      exact hall _ (hperm.mem_iff.mp (List.getLast_mem hne))
    rw [hhead, hlast]
    norm_num
  · intro comments ts lo hi h2 hp hlo hhi hbound hne0
    rw [velocity_formula h2 hp]
    have hperm := List.perm_insertionSort (· ≤ ·) ts
    have hsorted := List.sorted_insertionSort (· ≤ ·) ts
    set S := List.insertionSort (· ≤ ·) ts with hS
    have hloS : lo ∈ S := hperm.mem_iff.mpr hlo
    have hne : S ≠ [] := List.ne_nil_of_mem hloS
    have hhead : S.headI = lo := le_antisymm (sorted_headI_le hsorted hloS)
      ((hbound _ (hperm.mem_iff.mp (headI_mem_of_ne_nil hne))).1)
    have hlast : S.getLastI = hi := by
      rw [getLastI_eq_getLast hne]
      exact le_antisymm ((hbound _ (hperm.mem_iff.mp (List.getLast_mem hne))).2)
        (sorted_le_getLast hne hsorted hi (hperm.mem_iff.mpr hhi))
    rw [hhead, hlast, if_neg]
    intro hzero
    rcases div_eq_zero_iff.mp hzero with h0 | h0
    · exact sub_ne_zero.mpr (Ne.symm hne0) (by exact_mod_cast h0)
    · norm_num at h0
  · rw [velocity_formula (by decide)
      (show parseAllTimestamps fiveSameTime =
        some [63839700000, 63839700000, 63839700000, 63839700000, 63839700000] from by decide)]
    rw [show List.insertionSort (· ≤ ·)
        ([63839700000, 63839700000, 63839700000, 63839700000, 63839700000] : List ℤ) =
        [63839700000, 63839700000, 63839700000, 63839700000, 63839700000] from by decide]
    norm_num [List.getLastI, List.headI, fiveSameTime]
  · rw [velocity_formula (by decide)
      (show parseAllTimestamps tenOverFiveMinutes =
        some [63839700300, 63839700000, 63839700030, 63839700060, 63839700090,
          63839700120, 63839700150, 63839700180, 63839700210, 63839700240] from by decide)]
    rw [show List.insertionSort (· ≤ ·)
        ([63839700300, 63839700000, 63839700030, 63839700060, 63839700090,
          63839700120, 63839700150, 63839700180, 63839700210, 63839700240] : List ℤ) =
        [63839700000, 63839700030, 63839700060, 63839700090, 63839700120,
          63839700150, 63839700180, 63839700210, 63839700240, 63839700300] from by decide]
    rw [show ([63839700000, 63839700030, 63839700060, 63839700090, 63839700120,
          63839700150, 63839700180, 63839700210, 63839700240, 63839700300] : List ℤ).getLastI =
        63839700300 from by decide,
      show ([63839700000, 63839700030, 63839700060, 63839700090, 63839700120,
          63839700150, 63839700180, 63839700210, 63839700240, 63839700300] : List ℤ).headI =
        63839700000 from by decide,
      show tenOverFiveMinutes.length = 10 from by decide]
    norm_num [roundTo, roundHalfEven, Except.ok.injEq]

/-- Witness for C6: the empty batch returns 0.0 and five identically
timestamped comments return 5.0, via the general cases of the theorem. -/
theorem velocity_cases_witness :
    calculate_velocity_metrics ([] : List RawComment) = .ok 0 ∧
    calculate_velocity_metrics fiveSameTime = .ok (fiveSameTime.length : ℚ) :=
  ⟨velocity_cases.1 [] (by decide),
   velocity_cases.2.1 fiveSameTime
     [63839700000, 63839700000, 63839700000, 63839700000, 63839700000] 63839700000
     (by decide) (by decide) (by decide)⟩

/-- C2, counterexample: a singleton batch whose only timestamp is malformed
still yields 0.0 with no error, because the length guard fires before any
parsing; the claim as stated quantifies over every batch containing a
malformed timestamp, so this batch refutes it. -/
theorem velocity_malformed_singleton_counterexample :
    parseTimestamp ("not-a-timestamp".toList) = none ∧
    calculate_velocity_metrics badSingleton = .ok 0 :=
  ⟨by decide, rfl⟩

/-- C2, amended: for every batch of at least 2 comments containing a comment
whose timestamp does not parse, the velocity computation fails with the
ValueError-modelling error value and in particular never returns 0.0. -/
theorem velocity_malformed_timestamp_errors (comments : List RawComment)
    (c : RawComment) (h2 : 2 ≤ comments.length) (hc : c ∈ comments)
    (hp : parseTimestamp c.published_at = none) :
    calculate_velocity_metrics comments = .error "ValueError: invalid isoformat string" ∧
    calculate_velocity_metrics comments ≠ .ok 0 := by
  have herr : calculate_velocity_metrics comments =
      .error "ValueError: invalid isoformat string" := by
    unfold calculate_velocity_metrics
    rw [if_neg (show ¬comments.length < 2 by omega), parseAll_none_of_mem hc hp]
  refine ⟨herr, ?_⟩
  rw [herr]
  exact fun h => Except.noConfusion h

/-- Witness for C2's amended theorem at a concrete two-comment batch. -/
theorem velocity_malformed_timestamp_errors_witness :
    calculate_velocity_metrics badPair = .error "ValueError: invalid isoformat string" ∧
    calculate_velocity_metrics badPair ≠ .ok 0 :=
  velocity_malformed_timestamp_errors badPair (mkComment "hi" "a1" "not-a-timestamp")
    (by decide) (List.mem_cons_self _ _) (by decide)

/-- C10: a batch of fewer than 2 comments returns 0.0 before any timestamp is
parsed, whatever the contents of the published_at fields. -/
theorem velocity_short_batch_skips_parsing (comments : List RawComment)
    (h : comments.length < 2) : calculate_velocity_metrics comments = .ok 0 := by
  unfold calculate_velocity_metrics
  rw [if_pos h]

/-- Witness for C10: a singleton batch with an unparseable timestamp yields
0.0 and no error. -/
theorem velocity_short_batch_skips_parsing_witness :
    calculate_velocity_metrics [mkComment "zzz" "b" "garbage"] = .ok 0 ∧
    parseTimestamp ("garbage".toList) = none :=
  ⟨velocity_short_batch_skips_parsing _ (by decide), by decide⟩

lemma tenIdentical_dup : duplicate_ratio_val tenIdentical = 1/10 := by
  unfold duplicate_ratio_val
  rw [show ((lowerTexts tenIdentical).dedup.filter
      (fun t => decide (1 < (lowerTexts tenIdentical).count t))).length = 1 from by decide,
    show (lowerTexts tenIdentical).length = 10 from by decide]
  norm_num

lemma tenIdentical_diversity : author_diversity tenIdentical = 1/10 := by
  unfold author_diversity
  rw [show ((tenIdentical.map (fun c => c.author_channel_id)).dedup).length = 1 from by decide,
    show tenIdentical.length = 10 from by decide]
  norm_num

lemma tenIdentical_detect : detect_coordinated_activity tenIdentical = 21/50 := by
  unfold detect_coordinated_activity
  rw [if_neg (by decide), tenIdentical_dup, tenIdentical_diversity]
  norm_num [roundTo, roundHalfEven]

/-- C1, counterexample: for 10 comments with identical text and author the
code's duplicate ratio is 0.1 (one distinct duplicated text out of ten
comments), while the spec's per-member formula gives 1.0; the coordination
score is 0.42, not the claimed 0.96. -/
theorem coordination_ten_identical_counterexample :
    duplicate_ratio_val tenIdentical = 1/10 ∧
    spec_duplicate_ratio_val tenIdentical = 1 ∧
    detect_coordinated_activity tenIdentical = 21/50 ∧
    detect_coordinated_activity tenIdentical ≠ 24/25 := by
  refine ⟨tenIdentical_dup, ?_, tenIdentical_detect, by rw [tenIdentical_detect]; norm_num⟩
  unfold spec_duplicate_ratio_val
  rw [show ((lowerTexts tenIdentical).filter
      (fun t => decide (1 < (lowerTexts tenIdentical).count t))).length = 10 from by decide,
    show (lowerTexts tenIdentical).length = 10 from by decide]
  norm_num

/-- C1, amended: for every batch of at least 5 comments the duplicate ratio
equals the number of distinct lower-cased texts occurring more than once
divided by the total comment count, and the coordination score is the rounded
weighted combination of that ratio with author concentration; for 10 comments
all with identical text and identical author id, the duplicate ratio is 0.1
and the coordination score is 0.42. -/
theorem coordination_duplicate_ratio_distinct (comments : List RawComment)
    (h5 : 5 ≤ comments.length) :
    duplicate_ratio_val comments =
      (((lowerTexts comments).toFinset.filter
          (fun t => 1 < (lowerTexts comments).count t)).card : ℚ) /
        (comments.length : ℚ) ∧
    detect_coordinated_activity comments =
      roundTo 3 (duplicate_ratio_val comments * (6/10) +
        (1 - author_diversity comments) * (4/10)) ∧
    duplicate_ratio_val tenIdentical = 1/10 ∧
    detect_coordinated_activity tenIdentical = 21/50 := by
  refine ⟨?_, ?_, tenIdentical_dup, tenIdentical_detect⟩
  · unfold duplicate_ratio_val
    rw [show (lowerTexts comments).length = comments.length from List.length_map _ _]
    congr 1
  · unfold detect_coordinated_activity
    rw [if_neg (show ¬comments.length < 5 by omega)]

/-- Witness for C1's amended theorem at the 10-identical-comments batch. -/
theorem coordination_duplicate_ratio_distinct_witness :
    duplicate_ratio_val tenIdentical =
      (((lowerTexts tenIdentical).toFinset.filter
          (fun t => 1 < (lowerTexts tenIdentical).count t)).card : ℚ) /
        (tenIdentical.length : ℚ) ∧
    detect_coordinated_activity tenIdentical =
      roundTo 3 (duplicate_ratio_val tenIdentical * (6/10) +
        (1 - author_diversity tenIdentical) * (4/10)) ∧
    duplicate_ratio_val tenIdentical = 1/10 ∧
    detect_coordinated_activity tenIdentical = 21/50 :=
  coordination_duplicate_ratio_distinct tenIdentical (by decide)

lemma scamText_caps : has_excessive_caps_check scamText = false := by
  simp only [has_excessive_caps_check, capsFraction,
    show scamText.countP (fun c => c.isUpper) = 9 from by decide,
    show scamText.length = 37 from by decide]
  norm_num

lemma scamText_matches : spam_matches_count (scamText.map Char.toLower) = 4 := by decide

lemma scamText_url : has_url_check scamText = true := by decide

lemma scamText_rep : has_repetitive_check scamText = false := by decide

/-- C3, counterexample: the scenario text is not mostly uppercase (9 capitals
out of 37 characters, ratio below one half), so the excessive-caps flag is
false, refuting the claimed has_excessive_caps = true. -/
theorem scam_scenario_caps_counterexample :
    (analyze_comment_for_abuse scamText).has_excessive_caps = false := by
  rw [analyze_has_excessive_caps, scamText_caps]

/-- C3, amended: the scenario text fires the URL signal via the www. prefix,
matches at least 3 keywords, does not fire the excessive-caps signal (its
caps ratio is below one half), and its spam score clamps to exactly 1.0 with
is_spam true. -/
theorem scam_scenario :
    (analyze_comment_for_abuse scamText).has_url = true ∧
    3 ≤ spam_matches_count (scamText.map Char.toLower) ∧
    (analyze_comment_for_abuse scamText).has_excessive_caps = false ∧
    (analyze_comment_for_abuse scamText).spam_score = 1 ∧
    (analyze_comment_for_abuse scamText).is_spam = true := by
  refine ⟨by rw [analyze_has_url, scamText_url],
    by rw [scamText_matches]; norm_num,
    by rw [analyze_has_excessive_caps, scamText_caps], ?_, ?_⟩
  · rw [analyze_spam_score, scamText_matches, scamText_url, scamText_caps, scamText_rep,
      spam_score_of_signals_eq_raw, spamScoreRaw_eq]
    norm_num
  · rw [analyze_is_spam]
    refine decide_eq_true ?_
    rw [ge_iff_le, scamText_matches, scamText_url, scamText_caps, scamText_rep,
      spamScoreRaw_eq]
    norm_num

lemma store_spam_comments (comments : List ScoredComment) :
    (store_abuse_metrics comments).spam_comments =
      comments.countP (fun c => c.is_spam) := rfl

lemma store_suspicious (comments : List ScoredComment) :
    (store_abuse_metrics comments).suspicious_accounts =
      comments.countP (fun c => decide ((6:ℚ)/10 < c.spam_score)) := rfl

lemma store_total (comments : List ScoredComment) :
    (store_abuse_metrics comments).total_comments = comments.length := rfl

lemma suspicious_implies_spam_text (text : List Char)
    (h : (6:ℚ)/10 < (analyze_comment_for_abuse text).spam_score) :
    (analyze_comment_for_abuse text).is_spam = true := by
  rw [analyze_is_spam]
  refine decide_eq_true ?_
  rw [ge_iff_le, ← spam_score_of_signals_eq_raw, ← analyze_spam_score]
  linarith

/-- C8: a comment scoring above the 0.6 suspicious threshold is necessarily
classified spam (0.6 exceeds the 0.4 threshold), so in every aggregated
metrics row built from analyzer-scored comments the suspicious-account count
is at most the spam count, which is at most the total. -/
theorem suspicious_le_spam_le_total (text : List Char) (raws : List RawComment) :
    ((6:ℚ)/10 < (analyze_comment_for_abuse text).spam_score →
      (analyze_comment_for_abuse text).is_spam = true) ∧
    (store_abuse_metrics (raws.map enrich)).suspicious_accounts ≤
      (store_abuse_metrics (raws.map enrich)).spam_comments ∧
    (store_abuse_metrics (raws.map enrich)).spam_comments ≤
      (store_abuse_metrics (raws.map enrich)).total_comments := by
  refine ⟨suspicious_implies_spam_text text, ?_, ?_⟩
  · rw [store_suspicious, store_spam_comments]
    refine List.countP_mono_left ?_
    intro x hx hp
    rcases List.mem_map.mp hx with ⟨r, _, rfl⟩
    exact suspicious_implies_spam_text r.text_display (of_decide_eq_true hp)
  · rw [store_spam_comments, store_total]
    exact List.countP_le_length _

lemma c8_score_high :
    (6:ℚ)/10 < (analyze_comment_for_abuse ("free money click here www.".toList)).spam_score := by
  rw [analyze_spam_score,
    show spam_matches_count (("free money click here www.".toList).map Char.toLower) = 3
      from by decide,
    show has_url_check ("free money click here www.".toList) = true from by decide,
    show has_excessive_caps_check ("free money click here www.".toList) = false from by
      simp only [has_excessive_caps_check, capsFraction,
        show ("free money click here www.".toList).countP (fun c => c.isUpper) = 0 from by decide,
        show ("free money click here www.".toList).length = 26 from by decide]
      norm_num,
    show has_repetitive_check ("free money click here www.".toList) = false from by decide,
    spam_score_of_signals_eq_raw, spamScoreRaw_eq]
  norm_num

/-- Witness for C8 at a concrete batch containing a score-1.0 comment. -/
theorem suspicious_le_spam_le_total_witness :
    (analyze_comment_for_abuse ("free money click here www.".toList)).is_spam = true ∧
    (store_abuse_metrics ([mkComment "free money click here www." "a1" "t"].map enrich)).suspicious_accounts ≤
      (store_abuse_metrics ([mkComment "free money click here www." "a1" "t"].map enrich)).spam_comments ∧
    (store_abuse_metrics ([mkComment "free money click here www." "a1" "t"].map enrich)).spam_comments ≤
      (store_abuse_metrics ([mkComment "free money click here www." "a1" "t"].map enrich)).total_comments :=
  ⟨(suspicious_le_spam_le_total ("free money click here www.".toList)
      [mkComment "free money click here www." "a1" "t"]).1 c8_score_high,
   (suspicious_le_spam_le_total ("free money click here www.".toList)
      [mkComment "free money click here www." "a1" "t"]).2.1,
   (suspicious_le_spam_le_total ("free money click here www.".toList)
      [mkComment "free money click here www." "a1" "t"]).2.2⟩

end YTAbuse
